import Mathlib

/-!
Shallow embedding of the `/query` endpoint of `src/app.py`
(`query_gemini`, lines 24-119), a Flask proxy to a generative-language
API, together with theorems settling the frozen claims about it.

Modelling conventions:
* JSON values are the inductive `Json`. Python's `json` module decodes an
  integer literal to `int` (`Json.num`, carried as `Int`) and a literal
  with a fraction or exponent to `float` (`Json.float`): a finite double,
  carried here as the rational it denotes (every finite double is a
  rational; decimal-to-double rounding decides no claim), or one of the
  non-finite values the module accepts — e.g. the valid literal `1e999`
  overflows to `inf`, and the constants `Infinity`, `-Infinity`, `NaN`
  are accepted by default. This keeps `int(...)` raising `OverflowError`
  on infinite input and `ValueError` on NaN expressible. JSON object keys
  are assumed duplicate-free, as produced by Python's `json` module.
* Python `dict.get`, truthiness, indexing and `int(...)` conversion are
  embedded as `pyGetD`, `pyTruthy`, `pyIndex`, `pyInt`; attribute/type
  errors raised by those operations are propagated in an `Except PyExc`
  monad, matching Python exception propagation.
* `request.json` raising on a non-JSON body is modelled by the handler
  receiving `none`; the werkzeug exception is `PyExc.httpBadRequest`.
* The outbound `requests.post` + `raise_for_status` + `response.json()`
  block is modelled by the `UpstreamOutcome` parameter: either a transport
  failure carrying `str(e)` of the raised `RequestException` (connection
  error, non-2xx status, or undecodable body), or the decoded document.
* `print` calls are operator-side diagnostics with no effect on the
  response and are not modelled.
-/

/-- A Python float as decoded by the `json` module: a finite double
(carried as the rational it denotes, see the module docstring), or one of
the non-finite doubles `inf`, `-inf`, `nan` (produced e.g. by the valid
JSON literal `1e999`, or by the `Infinity`/`-Infinity`/`NaN` constants
the module accepts by default). Lean equality on `PyFloat` is used only
to model Python `is`-identity tests (never float `==`, where NaN would
differ). -/
inductive PyFloat where
  | finite (q : Rat)
  | inf
  | negInf
  | nan
deriving Repr, DecidableEq

/-- Python `int(f)` on a finite float truncates toward zero; on the
rational carrier this is T-division of the numerator by the denominator
(`Int.tdiv` rounds toward zero, matching CPython). -/
def ratTrunc (q : Rat) : Int := Int.tdiv q.num (q.den : Int)

/-- A JSON value as decoded by Python's `json` module (`num` for Python
`int`, `float` for Python `float`, see the module docstring). -/
inductive Json where
  | null
  | bool (b : Bool)
  | num (n : Int)
  | float (f : PyFloat)
  | str (s : String)
  | arr (elems : List Json)
  | obj (fields : List (String × Json))
deriving Repr

mutual
/-- Decidable equality on `Json` (the `deriving` handler does not support
this nested inductive, so it is spelled out). -/
def jsonDecEq : (a b : Json) → Decidable (a = b)
  | Json.null, Json.null => isTrue rfl
  | Json.null, Json.bool _ => isFalse (fun h => Json.noConfusion h)
  | Json.null, Json.num _ => isFalse (fun h => Json.noConfusion h)
  | Json.null, Json.float _ => isFalse (fun h => Json.noConfusion h)
  | Json.null, Json.str _ => isFalse (fun h => Json.noConfusion h)
  | Json.null, Json.arr _ => isFalse (fun h => Json.noConfusion h)
  | Json.null, Json.obj _ => isFalse (fun h => Json.noConfusion h)
  | Json.bool _, Json.null => isFalse (fun h => Json.noConfusion h)
  | Json.bool a, Json.bool b =>
      if h : a = b then isTrue (by rw [h]) else isFalse (fun he => h (by injection he))
  | Json.bool _, Json.num _ => isFalse (fun h => Json.noConfusion h)
  | Json.bool _, Json.float _ => isFalse (fun h => Json.noConfusion h)
  | Json.bool _, Json.str _ => isFalse (fun h => Json.noConfusion h)
  | Json.bool _, Json.arr _ => isFalse (fun h => Json.noConfusion h)
  | Json.bool _, Json.obj _ => isFalse (fun h => Json.noConfusion h)
  | Json.num _, Json.null => isFalse (fun h => Json.noConfusion h)
  | Json.num _, Json.bool _ => isFalse (fun h => Json.noConfusion h)
  | Json.num a, Json.num b =>
      if h : a = b then isTrue (by rw [h]) else isFalse (fun he => h (by injection he))
  | Json.num _, Json.float _ => isFalse (fun h => Json.noConfusion h)
  | Json.num _, Json.str _ => isFalse (fun h => Json.noConfusion h)
  | Json.num _, Json.arr _ => isFalse (fun h => Json.noConfusion h)
  | Json.num _, Json.obj _ => isFalse (fun h => Json.noConfusion h)
  | Json.float _, Json.null => isFalse (fun h => Json.noConfusion h)
  | Json.float _, Json.bool _ => isFalse (fun h => Json.noConfusion h)
  | Json.float _, Json.num _ => isFalse (fun h => Json.noConfusion h)
  | Json.float a, Json.float b =>
      if h : a = b then isTrue (by rw [h]) else isFalse (fun he => h (by injection he))
  | Json.float _, Json.str _ => isFalse (fun h => Json.noConfusion h)
  | Json.float _, Json.arr _ => isFalse (fun h => Json.noConfusion h)
  | Json.float _, Json.obj _ => isFalse (fun h => Json.noConfusion h)
  | Json.str _, Json.null => isFalse (fun h => Json.noConfusion h)
  | Json.str _, Json.bool _ => isFalse (fun h => Json.noConfusion h)
  | Json.str _, Json.num _ => isFalse (fun h => Json.noConfusion h)
  | Json.str _, Json.float _ => isFalse (fun h => Json.noConfusion h)
  | Json.str a, Json.str b =>
      if h : a = b then isTrue (by rw [h]) else isFalse (fun he => h (by injection he))
  | Json.str _, Json.arr _ => isFalse (fun h => Json.noConfusion h)
  | Json.str _, Json.obj _ => isFalse (fun h => Json.noConfusion h)
  | Json.arr _, Json.null => isFalse (fun h => Json.noConfusion h)
  | Json.arr _, Json.bool _ => isFalse (fun h => Json.noConfusion h)
  | Json.arr _, Json.num _ => isFalse (fun h => Json.noConfusion h)
  | Json.arr _, Json.float _ => isFalse (fun h => Json.noConfusion h)
  | Json.arr _, Json.str _ => isFalse (fun h => Json.noConfusion h)
  | Json.arr xs, Json.arr ys =>
      match jsonDecEqList xs ys with
      | isTrue h => isTrue (by rw [h])
      | isFalse h => isFalse (fun he => h (by injection he))
  | Json.arr _, Json.obj _ => isFalse (fun h => Json.noConfusion h)
  | Json.obj _, Json.null => isFalse (fun h => Json.noConfusion h)
  | Json.obj _, Json.bool _ => isFalse (fun h => Json.noConfusion h)
  | Json.obj _, Json.num _ => isFalse (fun h => Json.noConfusion h)
  | Json.obj _, Json.float _ => isFalse (fun h => Json.noConfusion h)
  | Json.obj _, Json.str _ => isFalse (fun h => Json.noConfusion h)
  | Json.obj _, Json.arr _ => isFalse (fun h => Json.noConfusion h)
  | Json.obj xs, Json.obj ys =>
      match jsonDecEqFields xs ys with
      | isTrue h => isTrue (by rw [h])
      | isFalse h => isFalse (fun he => h (by injection he))

/-- Decidable equality on lists of `Json`. -/
def jsonDecEqList : (a b : List Json) → Decidable (a = b)
  | [], [] => isTrue rfl
  | [], _ :: _ => isFalse (fun h => List.noConfusion h)
  | _ :: _, [] => isFalse (fun h => List.noConfusion h)
  | x :: xs, y :: ys =>
      match jsonDecEq x y, jsonDecEqList xs ys with
      | isTrue h1, isTrue h2 => isTrue (by rw [h1, h2])
      | isFalse h1, _ => isFalse (fun he => h1 (by injection he))
      | _, isFalse h2 => isFalse (fun he => h2 (by cases he; rfl))

/-- Decidable equality on `Json` object field lists. -/
def jsonDecEqFields : (a b : List (String × Json)) → Decidable (a = b)
  | [], [] => isTrue rfl
  | [], _ :: _ => isFalse (fun h => List.noConfusion h)
  | _ :: _, [] => isFalse (fun h => List.noConfusion h)
  | (k1, v1) :: xs, (k2, v2) :: ys =>
      if hk : k1 = k2 then
        match jsonDecEq v1 v2, jsonDecEqFields xs ys with
        | isTrue h1, isTrue h2 => isTrue (by rw [hk, h1, h2])
        | isFalse h1, _ =>
            isFalse (fun he => by
              injection he with h3 h4
              injection h3 with h5 h6
              exact h1 h6)
        | _, isFalse h2 =>
            isFalse (fun he => by
              injection he with h3 h4
              exact h2 h4)
      else
        isFalse (fun he => by
          injection he with h3 h4
          injection h3 with h5 h6
          exact hk h5)
end

instance : DecidableEq Json := jsonDecEq

/-- Python exceptions that the handler's operations can raise. -/
inductive PyExc where
  | httpBadRequest
  | attributeError
  | typeError
  | keyError
  | indexError
  | valueError
  | overflowError
deriving Repr, DecidableEq

/-- Stand-in for Python `str(e)` on a caught parsing exception (line 119
`return jsonify({"error": str(e)}), 500`); the exact wording decides no
claim. -/
def excMsg : PyExc → String
  | PyExc.httpBadRequest => "400 Bad Request: The browser (or proxy) sent a request that this server could not understand."
  | PyExc.attributeError => "AttributeError: object has no attribute get"
  | PyExc.typeError => "TypeError: int() argument must be a string, a bytes-like object or a real number"
  | PyExc.keyError => "KeyError: 0"
  | PyExc.indexError => "IndexError: list index out of range"
  | PyExc.valueError => "ValueError: invalid literal for int() with base 10"
  | PyExc.overflowError => "OverflowError: cannot convert float infinity to integer"

/-- Python truthiness of a JSON value (`if x:`); `0.0` is falsy, every
other float (including `inf` and `nan`) is truthy. -/
def pyTruthy : Json → Bool
  | Json.null => false
  | Json.bool b => b
  | Json.num n => n != 0
  | Json.float (PyFloat.finite q) => q != 0
  | Json.float PyFloat.inf => true
  | Json.float PyFloat.negInf => true
  | Json.float PyFloat.nan => true
  | Json.str s => s != ""
  | Json.arr xs => !xs.isEmpty
  | Json.obj fs => !fs.isEmpty

/-- First-match lookup in a JSON object's field list. -/
def dlookup (fields : List (String × Json)) (k : String) : Option Json :=
  match fields with
  | [] => none
  | (k2, v) :: rest => if k2 = k then some v else dlookup rest k

/-- Python `d.get(k, default)` on a dict known to be a dict. -/
def dget (fields : List (String × Json)) (k : String) (d : Json) : Json :=
  (dlookup fields k).getD d

/-- Python `v.get(k, default)`: raises `AttributeError` when `v` is not a
dict (e.g. `None.get`, `"x".get`, `[].get`). -/
def pyGetD : Json → String → Json → Except PyExc Json
  | Json.obj fields, k, d => Except.ok (dget fields k d)
  | _, _, _ => Except.error PyExc.attributeError

/-- Python `v[0]`-style integer indexing: lists index positionally,
strings yield a one-character string, dicts raise `KeyError` (JSON object
keys are strings, never the integer), other values raise `TypeError`. -/
def pyIndex : Json → Nat → Except PyExc Json
  | Json.arr xs, i =>
      match xs.get? i with
      | some v => Except.ok v
      | none => Except.error PyExc.indexError
  | Json.str s, i =>
      match s.toList.get? i with
      | some c => Except.ok (Json.str (String.mk [c]))
      | none => Except.error PyExc.indexError
  | Json.obj _, _ => Except.error PyExc.keyError
  | _, _ => Except.error PyExc.typeError

/-- Python `int(s)` on a string: optional surrounding whitespace, optional
sign, ASCII digits (digit-grouping underscores and non-ASCII digits are
not modelled; no claim exercises them). -/
def pyParseInt (s : String) : Option Int :=
  let t := s.trim
  let core := if t.startsWith "-" || t.startsWith "+" then t.drop 1 else t
  if core.length > 0 && core.toList.all Char.isDigit then
    let n : Nat := core.toList.foldl (fun acc c => acc * 10 + (c.toNat - 48)) 0
    some (if t.startsWith "-" then -(n : Int) else (n : Int))
  else none

/-- Python `int(x)` on a JSON value: ints pass through, bools coerce
(`int(True) = 1`), finite floats truncate toward zero, infinite floats
raise `OverflowError` (which the line 73 `except ValueError` does NOT
catch), NaN raises `ValueError` (which it does), parseable strings
convert, unparseable strings raise `ValueError`, and `None`/lists/dicts
raise `TypeError`. -/
def pyInt : Json → Except PyExc Int
  | Json.num n => Except.ok n
  | Json.bool b => Except.ok (if b then 1 else 0)
  | Json.float (PyFloat.finite q) => Except.ok (ratTrunc q)
  | Json.float PyFloat.inf => Except.error PyExc.overflowError
  | Json.float PyFloat.negInf => Except.error PyExc.overflowError
  | Json.float PyFloat.nan => Except.error PyExc.valueError
  | Json.str s =>
      match pyParseInt s with
      | some n => Except.ok n
      | none => Except.error PyExc.valueError
  | Json.null => Except.error PyExc.typeError
  | Json.arr _ => Except.error PyExc.typeError
  | Json.obj _ => Except.error PyExc.typeError

mutual
/-- Python `repr` of a JSON value, used by `str` on containers. The
decimal rendering CPython uses for finite floats is not reproduced (the
rational is printed instead); no claim exercises it. -/
def pyRepr : Json → String
  | Json.null => "None"
  | Json.bool true => "True"
  | Json.bool false => "False"
  | Json.num n => toString n
  | Json.float (PyFloat.finite q) => toString q
  | Json.float PyFloat.inf => "inf"
  | Json.float PyFloat.negInf => "-inf"
  | Json.float PyFloat.nan => "nan"
  | Json.str s => "\x27" ++ s ++ "\x27"
  | Json.arr xs => "[" ++ String.intercalate ", " (pyReprList xs) ++ "]"
  | Json.obj kvs => "\x7b" ++ String.intercalate ", " (pyReprFields kvs) ++ "\x7d"

/-- Helper for `pyRepr` on arrays. -/
def pyReprList : List Json → List String
  | [] => []
  | x :: xs => pyRepr x :: pyReprList xs

/-- Helper for `pyRepr` on objects. -/
def pyReprFields : List (String × Json) → List String
  | [] => []
  | (k, v) :: xs => ("\x27" ++ k ++ "\x27: " ++ pyRepr v) :: pyReprFields xs
end

/-- Python `str(x)` of a JSON value, as interpolated by an f-string
(line 106 `f"... Reason: {reason}"`): strings appear bare, other values
via `repr`-like printing. -/
def pyStr : Json → String
  | Json.str s => s
  | v => pyRepr v

/-- An HTTP response produced by the handler: status code and JSON body. -/
structure HttpResp where
  status : Nat
  body : Json
deriving Repr, DecidableEq

/-- What the handler invocation produces: either a response it returned
itself, or an exception that escaped the handler (converted by Flask's
default error machinery, outside this code). -/
inductive HResult where
  | resp (status : Nat) (body : Json)
  | uncaught (e : PyExc)
deriving Repr, DecidableEq

/-- Status code of a handler result, `none` when an exception escaped. -/
def HResult.statusOf : HResult → Option Nat
  | HResult.resp s _ => some s
  | HResult.uncaught _ => none

/-- Full observable outcome of one request: whether the outbound upstream
call was made (line 84 `requests.post`), the payload sent if so, and the
handler result. -/
structure Outcome where
  calledUpstream : Bool
  sentPayload : Option Json
  result : HResult
deriving Repr, DecidableEq

/-- Result of the outbound call block (lines 84-89): either a
`requests.exceptions.RequestException` was raised (connection failure,
`raise_for_status` on a non-2xx status, or an undecodable body), carrying
its `str(e)` text, or the decoded upstream JSON document. -/
inductive UpstreamOutcome where
  | transportFailure (excText : String)
  | document (doc : Json)
deriving Repr, DecidableEq

/-- Mirrors line 18: `GEMINI_API_KEY = os.environ.get("GEMINI_API_KEY",
"YOUR_GEMINI_API_KEY_IS_MISSING")`. -/
def GEMINI_API_KEY (env : String → Option String) : String :=
  (env "GEMINI_API_KEY").getD "YOUR_GEMINI_API_KEY_IS_MISSING"

/-- Lines 92-100 of `app.py`, the success-extraction chain:
`candidates = result.get("candidates", [{}])`, truthiness check, index,
`content`/`parts` chained `.get` with defaults, and the
`if parts and parts[0].get("text"):` guard. Returns `some answer` when the
success branch fires, `none` when it falls through, or the raised
exception. -/
def extractAnswer (result : Json) : Except PyExc (Option Json) :=
  match pyGetD result "candidates" (Json.arr [Json.obj []]) with
  | Except.error e => Except.error e
  | Except.ok candidates =>
    if pyTruthy candidates then
      match pyIndex candidates 0 with
      | Except.error e => Except.error e
      | Except.ok first_candidate =>
        match pyGetD first_candidate "content" (Json.obj []) with
        | Except.error e => Except.error e
        | Except.ok content =>
          match pyGetD content "parts" (Json.arr [Json.obj []]) with
          | Except.error e => Except.error e
          | Except.ok parts =>
            if pyTruthy parts then
              match pyIndex parts 0 with
              | Except.error e => Except.error e
              | Except.ok p0 =>
                match pyGetD p0 "text" Json.null with
                | Except.error e => Except.error e
                | Except.ok t =>
                  if pyTruthy t then Except.ok (some t) else Except.ok none
            else Except.ok none
    else Except.ok none

/-- Lines 92-112: normalize a decoded upstream document into the handler's
response — success passthrough, then the `promptFeedback`/`blockReason`
branch, then the generic fallback. -/
def parseUpstream (result : Json) : Except PyExc HttpResp :=
  match extractAnswer result with
  | Except.error e => Except.error e
  | Except.ok (some answer) =>
      Except.ok ⟨200, Json.obj [("answer", answer)]⟩
  | Except.ok none =>
    match pyGetD result "promptFeedback" Json.null with
    | Except.error e => Except.error e
    | Except.ok prompt_feedback =>
      if pyTruthy prompt_feedback then
        match pyGetD prompt_feedback "blockReason" (Json.str "Unknown reason.") with
        | Except.error e => Except.error e
        | Except.ok reason =>
            Except.ok ⟨500, Json.obj [("error", Json.str
              ("Generation blocked by Gemini safety filters or content policy. Reason: "
                ++ pyStr reason))]⟩
      else
        Except.ok ⟨500, Json.obj [("error", Json.str
          "Failed to extract text from API response. Check console logs for raw output.")]⟩

/-- Lines 83-119: the `try` block around the outbound call. A raised
`RequestException` hits the line 114 handler (note: status 500, message
interpolating `str(e)`); a document is parsed by lines 92-112, and any
exception that parsing raises hits the line 118 `except Exception`
handler (status 500, body `str(e)`). -/
def sendResult (up : UpstreamOutcome) : HResult :=
  match up with
  | UpstreamOutcome.transportFailure excText =>
      HResult.resp 500 (Json.obj [("error", Json.str
        ("API Request Error (HTTP Failure): " ++ excText
          ++ ". Check if your GEMINI_API_KEY is valid."))])
  | UpstreamOutcome.document doc =>
      match parseUpstream doc with
      | Except.ok r => HResult.resp r.status r.body
      | Except.error e =>
          HResult.resp 500 (Json.obj [("error", Json.str (excMsg e))])

/-- The `try` block as a whole: the upstream call is made, the payload is
sent, and the response is computed by `sendResult`. -/
def sendAndParse (payload : Json) (up : UpstreamOutcome) : Outcome :=
  ⟨true, some payload, sendResult up⟩

/-- Lines 24-119: the `/query` handler. `reqBody` is `none` when
`request.json` raises on a non-JSON body; a JSON body that is not an
object makes the first `data.get` raise `AttributeError` (uncaught). The
field reads, the empty-prompt 400, the missing-key 500, payload
construction (lines 53-77, including the `int(max_tokens)` conversion
whose `except` clause catches only `ValueError`), and the outbound block
follow the source line by line. -/
def query_gemini (apiKey : String) (reqBody : Option Json) (up : UpstreamOutcome) : Outcome :=
  match reqBody with
  | none => ⟨false, none, HResult.uncaught PyExc.httpBadRequest⟩
  | some (Json.obj data) =>
      let prompt := dget data "prompt" (Json.str "")
      let system_instruction := dget data "system_instruction" Json.null
      let use_search := dget data "use_search" (Json.bool false)
      let max_tokens := dget data "max_tokens" (Json.num 400)
      if pyTruthy prompt = false then
        ⟨false, none, HResult.resp 400 (Json.obj [("error", Json.str "No prompt provided")])⟩
      else if apiKey = "YOUR_GEMINI_API_KEY_IS_MISSING" then
        ⟨false, none, HResult.resp 500 (Json.obj [("error", Json.str
          "API Key is not set in the hosting service\x27s environment variables. Please set GEMINI_API_KEY.")])⟩
      else
        let payload0 : List (String × Json) :=
          [("contents", Json.arr [Json.obj [("parts", Json.arr [Json.obj [("text", prompt)]])]])]
        let payload1 :=
          if pyTruthy system_instruction then
            payload0 ++ [("systemInstruction", Json.obj [("parts", Json.arr [Json.obj [("text", system_instruction)]])])]
          else payload0
        let payload2 :=
          if pyTruthy use_search then
            payload1 ++ [("tools", Json.arr [Json.obj [("google_search", Json.obj [])]])]
          else payload1
        if max_tokens = Json.null then
          sendAndParse (Json.obj payload2) up
        else
          match pyInt max_tokens with
          | Except.error PyExc.valueError =>
              ⟨false, none, HResult.resp 400 (Json.obj [("error", Json.str "max_tokens must be an integer.")])⟩
          | Except.error e => ⟨false, none, HResult.uncaught e⟩
          | Except.ok n =>
              sendAndParse
                (Json.obj (payload2 ++ [("generationConfig", Json.obj [("maxOutputTokens", Json.num n)])]))
                up
  | some _ => ⟨false, none, HResult.uncaught PyExc.attributeError⟩

/-! ## Substring machinery (used to state "message contains ..." claims) -/

/-- Boolean test that the first list is an initial segment of the second. -/
def listPrefixOf : List Char → List Char → Bool
  | [], _ => true
  | _ :: _, [] => false
  | a :: as, b :: bs => a == b && listPrefixOf as bs

/-- Boolean test that `needle` occurs contiguously inside the second list. -/
def listSub (needle : List Char) : List Char → Bool
  | [] => listPrefixOf needle []
  | c :: t => listPrefixOf needle (c :: t) || listSub needle t

/-- Boolean substring containment on strings. -/
def strContains (hay needle : String) : Bool :=
  listSub needle.toList hay.toList

theorem listPrefixOf_append (n rest : List Char) : listPrefixOf n (n ++ rest) = true := by
  induction n with
  | nil => rfl
  | cons a as ih => simp [listPrefixOf, ih]

theorem listSub_of_prefixOf {n h : List Char} (hp : listPrefixOf n h = true) :
    listSub n h = true := by
  cases h with
  | nil => simpa [listSub] using hp
  | cons c t => simp [listSub, hp]

theorem listSub_append_left {n h : List Char} (pre : List Char) (hs : listSub n h = true) :
    listSub n (pre ++ h) = true := by
  induction pre with
  | nil => simpa using hs
  | cons c t ih => simpa [List.cons_append, listSub] using Or.inr ih

theorem string_toList_append (a b : String) : (a ++ b).toList = a.toList ++ b.toList := by
  cases a
  cases b
  rfl

theorem strContains_append_right (a b : String) : strContains (a ++ b) b = true := by
  unfold strContains
  rw [string_toList_append]
  exact listSub_append_left a.toList
    (listSub_of_prefixOf (by simpa using listPrefixOf_append b.toList []))

theorem strContains_append_middle (a b c : String) : strContains (a ++ b ++ c) b = true := by
  unfold strContains
  rw [string_toList_append, string_toList_append, List.append_assoc]
  exact listSub_append_left a.toList
    (listSub_of_prefixOf (listPrefixOf_append b.toList c.toList))

/-! ## Shared lemmas about the handler -/

/-- A request with a truthy prompt, a configured key and a convertible (or
explicitly null) `max_tokens` reaches the outbound call: the handler is
`sendAndParse` on some payload. -/
theorem handler_sends (key : String) (bf : List (String × Json)) (up : UpstreamOutcome)
    (hkey : key ≠ "YOUR_GEMINI_API_KEY_IS_MISSING")
    (hprompt : pyTruthy (dget bf "prompt" (Json.str "")) = true)
    (hmt : dget bf "max_tokens" (Json.num 400) = Json.null ∨
      ∃ n, pyInt (dget bf "max_tokens" (Json.num 400)) = Except.ok n) :
    ∃ pl, query_gemini key (some (Json.obj bf)) up = sendAndParse (Json.obj pl) up := by
  unfold query_gemini
  simp only [hprompt, Bool.true_eq_false, if_false, hkey, if_neg, reduceIte]
  rcases hmt with hmt | ⟨n, hmt⟩
  · simp only [hmt, if_pos]
    exact ⟨_, rfl⟩
  · have hne : dget bf "max_tokens" (Json.num 400) ≠ Json.null := by
      intro h
      rw [h] at hmt
      exact Except.noConfusion hmt
    simp only [hne, if_neg, reduceIte, hmt]
    exact ⟨_, rfl⟩

/-- Lines 92-99 fire the success branch on a document whose
`candidates[0].content.parts[0].text` is a non-empty string. -/
theorem extractAnswer_success (df c0f ctf p0f : List (String × Json)) (cs ps : List Json)
    (t : String)
    (hcand : dlookup df "candidates" = some (Json.arr (Json.obj c0f :: cs)))
    (hcontent : dlookup c0f "content" = some (Json.obj ctf))
    (hparts : dlookup ctf "parts" = some (Json.arr (Json.obj p0f :: ps)))
    (htext : dlookup p0f "text" = some (Json.str t))
    (ht : t ≠ "") :
    extractAnswer (Json.obj df) = Except.ok (some (Json.str t)) := by
  unfold extractAnswer
  simp [pyGetD, dget, hcand, hcontent, hparts, htext, pyTruthy, pyIndex, ht]

/-- The outbound block records the payload it sent, whatever the upstream
outcome. -/
theorem sendAndParse_sentPayload (pl : Json) (up : UpstreamOutcome) :
    (sendAndParse pl up).sentPayload = some pl := rfl

/-- Lookup distributes over append when the key is absent on the left. -/
theorem dlookup_append (xs ys : List (String × Json)) (k : String)
    (h : dlookup xs k = none) : dlookup (xs ++ ys) k = dlookup ys k := by
  induction xs with
  | nil => rfl
  | cons kv rest ih =>
      obtain ⟨k2, v⟩ := kv
      by_cases hk : k2 = k
      · rw [dlookup, if_pos hk] at h
        exact Option.noConfusion h
      · rw [List.cons_append, dlookup, if_neg hk]
        rw [dlookup, if_neg hk] at h
        exact ih h

/-! ## Claim theorems -/

/-- C1: for every upstream success document in which
`candidates[0].content.parts[0].text` is present and non-empty, and any
request that reaches the outbound call, the `/query` response is exactly
`{"answer": <that text>}` with status 200, the text passed through
unmodified. -/
theorem C1_success_text_passthrough
    (key p t : String) (bf df c0f ctf p0f : List (String × Json)) (cs ps : List Json)
    (hkey : key ≠ "YOUR_GEMINI_API_KEY_IS_MISSING")
    (hprompt : dlookup bf "prompt" = some (Json.str p)) (hp : p ≠ "")
    (hmt : dget bf "max_tokens" (Json.num 400) = Json.null ∨
      ∃ n, pyInt (dget bf "max_tokens" (Json.num 400)) = Except.ok n)
    (hcand : dlookup df "candidates" = some (Json.arr (Json.obj c0f :: cs)))
    (hcontent : dlookup c0f "content" = some (Json.obj ctf))
    (hparts : dlookup ctf "parts" = some (Json.arr (Json.obj p0f :: ps)))
    (htext : dlookup p0f "text" = some (Json.str t)) (ht : t ≠ "") :
    (query_gemini key (some (Json.obj bf)) (UpstreamOutcome.document (Json.obj df))).result
      = HResult.resp 200 (Json.obj [("answer", Json.str t)]) := by
  obtain ⟨pl, hq⟩ := handler_sends key bf (UpstreamOutcome.document (Json.obj df)) hkey
    (by simp [dget, hprompt, pyTruthy, hp]) hmt
  rw [hq]
  have hparse : parseUpstream (Json.obj df)
      = Except.ok ⟨200, Json.obj [("answer", Json.str t)]⟩ := by
    unfold parseUpstream
    rw [extractAnswer_success df c0f ctf p0f cs ps t hcand hcontent hparts htext ht]
  show sendResult (UpstreamOutcome.document (Json.obj df)) = _
  simp [sendResult, hparse]

/-- Witness for C1 at a concrete request and upstream document. -/
theorem C1_success_text_passthrough_witness :
    (query_gemini "k" (some (Json.obj [("prompt", Json.str "hi")]))
      (UpstreamOutcome.document (Json.obj [("candidates", Json.arr
        [Json.obj [("content", Json.obj [("parts", Json.arr
          [Json.obj [("text", Json.str "hello")]])])]])]))).result
      = HResult.resp 200 (Json.obj [("answer", Json.str "hello")]) :=
  C1_success_text_passthrough "k" "hi" "hello"
    [("prompt", Json.str "hi")]
    [("candidates", Json.arr [Json.obj [("content", Json.obj [("parts", Json.arr
      [Json.obj [("text", Json.str "hello")]])])]])]
    [("content", Json.obj [("parts", Json.arr [Json.obj [("text", Json.str "hello")]])])]
    [("parts", Json.arr [Json.obj [("text", Json.str "hello")]])]
    [("text", Json.str "hello")]
    [] []
    (by decide) rfl (by decide)
    (Or.inr ⟨400, rfl⟩)
    rfl rfl rfl rfl (by decide)

/-- C7: a request whose `prompt` field is missing or the empty string is
answered `{"error": "No prompt provided"}` with status 400, and the
outbound upstream call is not attempted. -/
theorem C7_no_prompt_rejected (key : String) (bf : List (String × Json)) (up : UpstreamOutcome)
    (h : dlookup bf "prompt" = none ∨ dlookup bf "prompt" = some (Json.str "")) :
    query_gemini key (some (Json.obj bf)) up
      = ⟨false, none, HResult.resp 400 (Json.obj [("error", Json.str "No prompt provided")])⟩ := by
  have hfalse : pyTruthy (dget bf "prompt" (Json.str "")) = false := by
    rcases h with h | h <;> simp [dget, h, pyTruthy]
  unfold query_gemini
  simp [hfalse]

/-- Witness for C7 at the empty request object. -/
theorem C7_no_prompt_rejected_witness :
    query_gemini "k" (some (Json.obj [])) (UpstreamOutcome.document (Json.obj []))
      = ⟨false, none, HResult.resp 400 (Json.obj [("error", Json.str "No prompt provided")])⟩ :=
  C7_no_prompt_rejected "k" [] (UpstreamOutcome.document (Json.obj [])) (Or.inl rfl)

/-- C9 (amended): a non-JSON body makes `request.json` (line 36) raise
before any handler logic runs; the exception escapes the handler, the
framework's default error response is produced, no upstream call is made,
and the handler never returns `{"error": "Missing JSON in request"}` —
that string occurs nowhere in the code. -/
theorem C9_nonjson_framework_error (key : String) (up : UpstreamOutcome) :
    query_gemini key none up = ⟨false, none, HResult.uncaught PyExc.httpBadRequest⟩ := rfl

/-- C9 counterexample: on a non-JSON body the handler does not return the
claimed `{"error": "Missing JSON in request"}` with status 400; the
request-parsing exception escapes instead. -/
theorem C9_nonjson_counterexample :
    (query_gemini "k" none (UpstreamOutcome.document (Json.obj []))).result
        = HResult.uncaught PyExc.httpBadRequest ∧
      (query_gemini "k" none (UpstreamOutcome.document (Json.obj []))).result
        ≠ HResult.resp 400 (Json.obj [("error", Json.str "Missing JSON in request")]) := by
  exact ⟨rfl, by decide⟩

set_option maxHeartbeats 1000000 in
/-- C10: an explicit `max_tokens: null` in the body suppresses
`generationConfig` entirely in the upstream payload, while an absent
`max_tokens` key applies the default `maxOutputTokens = 400`. -/
theorem C10_null_max_tokens_omits_generation_config
    (key p : String) (bf : List (String × Json)) (up : UpstreamOutcome)
    (hkey : key ≠ "YOUR_GEMINI_API_KEY_IS_MISSING")
    (hprompt : dlookup bf "prompt" = some (Json.str p)) (hp : p ≠ "") :
    (dlookup bf "max_tokens" = some Json.null →
      ∃ pl, (query_gemini key (some (Json.obj bf)) up).sentPayload = some (Json.obj pl) ∧
        dlookup pl "generationConfig" = none) ∧
    (dlookup bf "max_tokens" = none →
      ∃ pl, (query_gemini key (some (Json.obj bf)) up).sentPayload = some (Json.obj pl) ∧
        dlookup pl "generationConfig" = some (Json.obj [("maxOutputTokens", Json.num 400)])) := by
  have hpt : pyTruthy (dget bf "prompt" (Json.str "")) = true := by
    simp [dget, hprompt, pyTruthy, hp]
  constructor
  · intro hnull
    have hmt : dget bf "max_tokens" (Json.num 400) = Json.null := by simp [dget, hnull]
    unfold query_gemini
    simp only [hpt, Bool.true_eq_false, if_false, reduceIte, hkey, hmt, if_pos]
    refine ⟨_, sendAndParse_sentPayload _ up, ?_⟩
    split <;> split <;> simp [dlookup]
  · intro hnone
    have hmt : dget bf "max_tokens" (Json.num 400) = Json.num 400 := by simp [dget, hnone]
    unfold query_gemini
    simp only [hpt, Bool.true_eq_false, if_false, reduceIte, hkey, hmt, pyInt]
    refine ⟨_, sendAndParse_sentPayload _ up, ?_⟩
    rw [dlookup_append]
    · simp [dlookup]
    · split <;> split <;> simp [dlookup]

/-- Every upstream outcome makes the `try` block produce a response (the
line 114 and line 118 handlers catch everything raised inside it). -/
theorem sendResult_resp (up : UpstreamOutcome) :
    ∃ s b, sendResult up = HResult.resp s b := by
  cases up with
  | transportFailure e => exact ⟨_, _, rfl⟩
  | document doc =>
      cases hp : parseUpstream doc with
      | ok r => exact ⟨r.status, r.body, by simp [sendResult, hp]⟩
      | error e => exact ⟨500, Json.obj [("error", Json.str (excMsg e))], by simp [sendResult, hp]⟩

/-- C2 counterexample: a transport failure on a well-formed request is
answered with status 500, not the claimed 503. -/
theorem C2_transport_status_counterexample :
    (query_gemini "k" (some (Json.obj [("prompt", Json.str "hi")]))
        (UpstreamOutcome.transportFailure "connection refused")).result.statusOf = some 500 ∧
      (query_gemini "k" (some (Json.obj [("prompt", Json.str "hi")]))
        (UpstreamOutcome.transportFailure "connection refused")).result.statusOf ≠ some 503 :=
  ⟨rfl, by decide⟩

/-- C2 (amended): every transport-level failure of the outbound call
(connection error or non-2xx upstream status, both raised as
`RequestException`) is answered by the classified transport-error message
with HTTP status 500 (line 117), not 503. -/
theorem C2_transport_error_resp_500
    (key p e : String) (bf : List (String × Json))
    (hkey : key ≠ "YOUR_GEMINI_API_KEY_IS_MISSING")
    (hprompt : dlookup bf "prompt" = some (Json.str p)) (hp : p ≠ "")
    (hmt : dget bf "max_tokens" (Json.num 400) = Json.null ∨
      ∃ n, pyInt (dget bf "max_tokens" (Json.num 400)) = Except.ok n) :
    (query_gemini key (some (Json.obj bf)) (UpstreamOutcome.transportFailure e)).result
      = HResult.resp 500 (Json.obj [("error", Json.str
          ("API Request Error (HTTP Failure): " ++ e
            ++ ". Check if your GEMINI_API_KEY is valid."))]) := by
  obtain ⟨pl, hq⟩ := handler_sends key bf (UpstreamOutcome.transportFailure e) hkey
    (by simp [dget, hprompt, pyTruthy, hp]) hmt
  rw [hq]
  rfl

/-- Witness for C2's amended theorem at a concrete request and failure. -/
theorem C2_transport_error_resp_500_witness :
    (query_gemini "k" (some (Json.obj [("prompt", Json.str "hi")]))
        (UpstreamOutcome.transportFailure "connection refused")).result
      = HResult.resp 500 (Json.obj [("error", Json.str
          ("API Request Error (HTTP Failure): " ++ "connection refused"
            ++ ". Check if your GEMINI_API_KEY is valid."))]) :=
  C2_transport_error_resp_500 "k" "hi" "connection refused" [("prompt", Json.str "hi")]
    (by decide) rfl (by decide) (Or.inr ⟨400, rfl⟩)

/-- C3 counterexample: an upstream document with
`candidates[0].finishReason = "MAX_TOKENS"` and no text is answered with
the generic parsing-failure message, which references neither tokens nor
prompt simplification. -/
theorem C3_max_tokens_counterexample :
    (query_gemini "k" (some (Json.obj [("prompt", Json.str "hi")]))
        (UpstreamOutcome.document (Json.obj [("candidates", Json.arr
          [Json.obj [("content", Json.obj []), ("finishReason", Json.str "MAX_TOKENS")]])]))).result
      = HResult.resp 500 (Json.obj [("error", Json.str
          "Failed to extract text from API response. Check console logs for raw output.")]) ∧
    strContains
      "Failed to extract text from API response. Check console logs for raw output."
      "token" = false ∧
    strContains
      "Failed to extract text from API response. Check console logs for raw output."
      "simplif" = false :=
  ⟨rfl, by decide, by decide⟩

/-- C3 (amended): a document with no usable text and no prompt feedback is
answered with status 500 and the fixed generic parsing-failure message,
whatever string `candidates[0].finishReason` holds — the code never
inspects `finishReason`, so no token-limit advice is produced. -/
theorem C3_fallback_generic_message
    (key p fr : String) (bf c0f : List (String × Json))
    (hkey : key ≠ "YOUR_GEMINI_API_KEY_IS_MISSING")
    (hprompt : dlookup bf "prompt" = some (Json.str p)) (hp : p ≠ "")
    (hmt : dget bf "max_tokens" (Json.num 400) = Json.null ∨
      ∃ n, pyInt (dget bf "max_tokens" (Json.num 400)) = Except.ok n)
    (hnocontent : dlookup c0f "content" = none)
    (hfr : dlookup c0f "finishReason" = some (Json.str fr)) :
    (query_gemini key (some (Json.obj bf))
        (UpstreamOutcome.document (Json.obj [("candidates", Json.arr [Json.obj c0f])]))).result
      = HResult.resp 500 (Json.obj [("error", Json.str
          "Failed to extract text from API response. Check console logs for raw output.")]) := by
  obtain ⟨pl, hq⟩ := handler_sends key bf
    (UpstreamOutcome.document (Json.obj [("candidates", Json.arr [Json.obj c0f])])) hkey
    (by simp [dget, hprompt, pyTruthy, hp]) hmt
  have hextract : extractAnswer (Json.obj [("candidates", Json.arr [Json.obj c0f])])
      = Except.ok none := by
    unfold extractAnswer
    simp [pyGetD, dget, dlookup, hnocontent, pyTruthy, pyIndex]
  have hparse : parseUpstream (Json.obj [("candidates", Json.arr [Json.obj c0f])])
      = Except.ok ⟨500, Json.obj [("error", Json.str
          "Failed to extract text from API response. Check console logs for raw output.")]⟩ := by
    unfold parseUpstream
    rw [hextract]
    simp [pyGetD, dget, dlookup, pyTruthy]
  rw [hq]
  show sendResult (UpstreamOutcome.document (Json.obj [("candidates", Json.arr [Json.obj c0f])])) = _
  simp [sendResult, hparse]

/-- Witness for C3's amended theorem at a concrete MAX_TOKENS document. -/
theorem C3_fallback_generic_message_witness :
    (query_gemini "k" (some (Json.obj [("prompt", Json.str "hi")]))
        (UpstreamOutcome.document (Json.obj [("candidates", Json.arr
          [Json.obj [("finishReason", Json.str "MAX_TOKENS")]])]))).result
      = HResult.resp 500 (Json.obj [("error", Json.str
          "Failed to extract text from API response. Check console logs for raw output.")]) :=
  C3_fallback_generic_message "k" "hi" "MAX_TOKENS" [("prompt", Json.str "hi")]
    [("finishReason", Json.str "MAX_TOKENS")]
    (by decide) rfl (by decide) (Or.inr ⟨400, rfl⟩) rfl rfl

/-- C4: a document with no usable text whose `promptFeedback.blockReason`
is the string `r` is answered with status 500 and an error message
containing `r` verbatim. -/
theorem C4_block_reason_verbatim
    (key p r : String) (bf df pff : List (String × Json))
    (hkey : key ≠ "YOUR_GEMINI_API_KEY_IS_MISSING")
    (hprompt : dlookup bf "prompt" = some (Json.str p)) (hp : p ≠ "")
    (hmt : dget bf "max_tokens" (Json.num 400) = Json.null ∨
      ∃ n, pyInt (dget bf "max_tokens" (Json.num 400)) = Except.ok n)
    (hnotext : extractAnswer (Json.obj df) = Except.ok none)
    (hpf : dlookup df "promptFeedback" = some (Json.obj pff)) (hpfne : pff ≠ [])
    (hreason : dlookup pff "blockReason" = some (Json.str r)) :
    (query_gemini key (some (Json.obj bf)) (UpstreamOutcome.document (Json.obj df))).result
      = HResult.resp 500 (Json.obj [("error", Json.str
          ("Generation blocked by Gemini safety filters or content policy. Reason: " ++ r))]) ∧
    strContains
      ("Generation blocked by Gemini safety filters or content policy. Reason: " ++ r) r
      = true := by
  obtain ⟨pl, hq⟩ := handler_sends key bf (UpstreamOutcome.document (Json.obj df)) hkey
    (by simp [dget, hprompt, pyTruthy, hp]) hmt
  have hempty : pff.isEmpty = false := by
    cases pff with
    | nil => exact absurd rfl hpfne
    | cons a l => rfl
  have hparse : parseUpstream (Json.obj df)
      = Except.ok ⟨500, Json.obj [("error", Json.str
          ("Generation blocked by Gemini safety filters or content policy. Reason: " ++ r))]⟩ := by
    unfold parseUpstream
    rw [hnotext]
    simp [pyGetD, dget, hpf, pyTruthy, hempty, hreason, pyStr]
  constructor
  · rw [hq]
    show sendResult (UpstreamOutcome.document (Json.obj df)) = _
    simp [sendResult, hparse]
  · exact strContains_append_right
      "Generation blocked by Gemini safety filters or content policy. Reason: " r

/-- Witness for C4 at a concrete blocked document with reason OTHER. -/
theorem C4_block_reason_verbatim_witness :
    (query_gemini "k" (some (Json.obj [("prompt", Json.str "hi")]))
        (UpstreamOutcome.document (Json.obj [("promptFeedback", Json.obj
          [("blockReason", Json.str "OTHER")])]))).result
      = HResult.resp 500 (Json.obj [("error", Json.str
          ("Generation blocked by Gemini safety filters or content policy. Reason: " ++ "OTHER"))]) ∧
    strContains
      ("Generation blocked by Gemini safety filters or content policy. Reason: " ++ "OTHER") "OTHER"
      = true :=
  C4_block_reason_verbatim "k" "hi" "OTHER" [("prompt", Json.str "hi")]
    [("promptFeedback", Json.obj [("blockReason", Json.str "OTHER")])]
    [("blockReason", Json.str "OTHER")]
    (by decide) rfl (by decide) (Or.inr ⟨400, rfl⟩) rfl rfl (by decide) rfl

/-- C5 counterexample: the transport-failure error body embeds the raw
exception text, including upstream URL detail with the credential. -/
theorem C5_leak_counterexample :
    (query_gemini "k" (some (Json.obj [("prompt", Json.str "hi")]))
        (UpstreamOutcome.transportFailure
          "HTTPSConnectionPool: Max retries exceeded with url: /v1beta/models/gemini:generateContent?key=SECRET123")).result
      = HResult.resp 500 (Json.obj [("error", Json.str
          ("API Request Error (HTTP Failure): "
            ++ "HTTPSConnectionPool: Max retries exceeded with url: /v1beta/models/gemini:generateContent?key=SECRET123"
            ++ ". Check if your GEMINI_API_KEY is valid."))]) ∧
    strContains
      ("API Request Error (HTTP Failure): "
        ++ "HTTPSConnectionPool: Max retries exceeded with url: /v1beta/models/gemini:generateContent?key=SECRET123"
        ++ ". Check if your GEMINI_API_KEY is valid.")
      "SECRET123" = true :=
  ⟨rfl, by decide⟩

/-- C5 (amended): for every transport failure the caller-facing error
field is the fixed template of line 117, which embeds the raw exception
text `str(e)` verbatim — internal detail (such as the upstream URL with
the credential, as `requests` exception texts carry) flows into the
response body; the full upstream payload is not included. -/
theorem C5_transport_message_embeds_exception
    (key p e : String) (bf : List (String × Json))
    (hkey : key ≠ "YOUR_GEMINI_API_KEY_IS_MISSING")
    (hprompt : dlookup bf "prompt" = some (Json.str p)) (hp : p ≠ "")
    (hmt : dget bf "max_tokens" (Json.num 400) = Json.null ∨
      ∃ n, pyInt (dget bf "max_tokens" (Json.num 400)) = Except.ok n) :
    ∃ msg : String,
      (query_gemini key (some (Json.obj bf)) (UpstreamOutcome.transportFailure e)).result
        = HResult.resp 500 (Json.obj [("error", Json.str msg)]) ∧
      msg = "API Request Error (HTTP Failure): " ++ e
        ++ ". Check if your GEMINI_API_KEY is valid." ∧
      strContains msg e = true := by
  obtain ⟨pl, hq⟩ := handler_sends key bf (UpstreamOutcome.transportFailure e) hkey
    (by simp [dget, hprompt, pyTruthy, hp]) hmt
  refine ⟨_, by rw [hq]; rfl, rfl, ?_⟩
  exact strContains_append_middle "API Request Error (HTTP Failure): " e
    ". Check if your GEMINI_API_KEY is valid."

/-- Witness for C5's amended theorem at a concrete exception text. -/
theorem C5_transport_message_embeds_exception_witness :
    (query_gemini "k" (some (Json.obj [("prompt", Json.str "hi")]))
        (UpstreamOutcome.transportFailure "boom")).result
      = HResult.resp 500 (Json.obj [("error", Json.str
          ("API Request Error (HTTP Failure): " ++ "boom"
            ++ ". Check if your GEMINI_API_KEY is valid."))]) ∧
    strContains
      ("API Request Error (HTTP Failure): " ++ "boom"
        ++ ". Check if your GEMINI_API_KEY is valid.") "boom" = true := by
  obtain ⟨msg, h1, h2, h3⟩ := C5_transport_message_embeds_exception "k" "hi" "boom"
    [("prompt", Json.str "hi")] (by decide) rfl (by decide) (Or.inr ⟨400, rfl⟩)
  rw [h2] at h1 h3
  exact ⟨h1, h3⟩

/-- C6 counterexample: the body `{"prompt": "hi", "max_tokens": []}` makes
`int(max_tokens)` raise `TypeError` (line 72), and the valid JSON body
`{"prompt": "hi", "max_tokens": 1e999}` (decoding to `float("inf")`)
makes it raise `OverflowError`; neither is caught by the line 73
`except ValueError`, and both are outside the line 83 `try`, so the
exceptions escape the handler: the handler returns no JSON object for
these inputs. -/
theorem C6_boundary_counterexample :
    (query_gemini "k" (some (Json.obj [("prompt", Json.str "hi"), ("max_tokens", Json.arr [])]))
        (UpstreamOutcome.document (Json.obj []))).result
      = HResult.uncaught PyExc.typeError ∧
    (query_gemini "k" (some (Json.obj [("prompt", Json.str "hi"), ("max_tokens", Json.float PyFloat.inf)]))
        (UpstreamOutcome.document (Json.obj []))).result
      = HResult.uncaught PyExc.overflowError :=
  ⟨rfl, rfl⟩

/-- C6 (amended): the handler catches everything raised inside the
outbound `try` block and converts it to a JSON error response, but four
classes of request input raise before that block and escape the handler
(to be answered by the framework, not by handler JSON): a non-JSON body
(`request.json`), a JSON body that is not an object (`data.get`), a
`max_tokens` of array/object type (`int(...)` raising `TypeError` past
the `except ValueError`), and a `max_tokens` that is an infinite float —
the valid JSON literal `1e999` decodes to `float("inf")` and `int(...)`
raises `OverflowError`, also past the `except ValueError`. (A NaN
`max_tokens` raises `ValueError`, which line 73 does catch, giving a 400
response.) Every outcome is one of: a handler response, or one of exactly
those four escaped exceptions. -/
theorem C6_error_boundary_characterization
    (key : String) (reqBody : Option Json) (up : UpstreamOutcome) :
    (∃ s b, (query_gemini key reqBody up).result = HResult.resp s b)
    ∨ (query_gemini key reqBody up).result = HResult.uncaught PyExc.httpBadRequest
    ∨ (query_gemini key reqBody up).result = HResult.uncaught PyExc.attributeError
    ∨ (query_gemini key reqBody up).result = HResult.uncaught PyExc.typeError
    ∨ (query_gemini key reqBody up).result = HResult.uncaught PyExc.overflowError := by
  cases reqBody with
  | none => exact Or.inr (Or.inl rfl)
  | some data =>
    cases data with
    | null => exact Or.inr (Or.inr (Or.inl rfl))
    | bool b => exact Or.inr (Or.inr (Or.inl rfl))
    | num n => exact Or.inr (Or.inr (Or.inl rfl))
    | float f => exact Or.inr (Or.inr (Or.inl rfl))
    | str s => exact Or.inr (Or.inr (Or.inl rfl))
    | arr xs => exact Or.inr (Or.inr (Or.inl rfl))
    | obj bf =>
      simp only [query_gemini]
      by_cases h1 : pyTruthy (dget bf "prompt" (Json.str "")) = false
      · rw [if_pos h1]
        exact Or.inl ⟨_, _, rfl⟩
      · rw [if_neg h1]
        by_cases h2 : key = "YOUR_GEMINI_API_KEY_IS_MISSING"
        · rw [if_pos h2]
          exact Or.inl ⟨_, _, rfl⟩
        · rw [if_neg h2]
          cases hmt : dget bf "max_tokens" (Json.num 400) with
          | null =>
              rw [if_pos rfl]
              obtain ⟨s, b, hs⟩ := sendResult_resp up
              exact Or.inl ⟨s, b, hs⟩
          | bool c =>
              rw [if_neg (fun h => Json.noConfusion h)]
              obtain ⟨s, b, hs⟩ := sendResult_resp up
              exact Or.inl ⟨s, b, hs⟩
          | num n =>
              rw [if_neg (fun h => Json.noConfusion h)]
              obtain ⟨s, b, hs⟩ := sendResult_resp up
              exact Or.inl ⟨s, b, hs⟩
          | float f =>
              rw [if_neg (fun h => Json.noConfusion h)]
              cases f with
              | finite q =>
                  obtain ⟨s2, b, hs⟩ := sendResult_resp up
                  exact Or.inl ⟨s2, b, hs⟩
              | inf => exact Or.inr (Or.inr (Or.inr (Or.inr rfl)))
              | negInf => exact Or.inr (Or.inr (Or.inr (Or.inr rfl)))
              | nan => exact Or.inl ⟨_, _, rfl⟩
          | str s =>
              rw [if_neg (fun h => Json.noConfusion h)]
              cases hps : pyParseInt s with
              | none =>
                  rw [show pyInt (Json.str s) = Except.error PyExc.valueError from by
                    simp [pyInt, hps]]
                  exact Or.inl ⟨_, _, rfl⟩
              | some n =>
                  rw [show pyInt (Json.str s) = Except.ok n from by
                    simp [pyInt, hps]]
                  obtain ⟨s2, b, hs⟩ := sendResult_resp up
                  exact Or.inl ⟨s2, b, hs⟩
          | arr xs =>
              rw [if_neg (fun h => Json.noConfusion h)]
              exact Or.inr (Or.inr (Or.inr (Or.inl rfl)))
          | obj fs =>
              rw [if_neg (fun h => Json.noConfusion h)]
              exact Or.inr (Or.inr (Or.inr (Or.inl rfl)))

/-- C8 counterexample: with no credential set the process still starts
(line 18 substitutes a sentinel default) and a request with an empty
prompt is answered 400 by input validation, not by a 500 naming the
missing configuration — so "every request fails fast with a 500" fails. -/
theorem C8_missing_key_counterexample :
    (query_gemini (GEMINI_API_KEY (fun _ => none))
        (some (Json.obj [("prompt", Json.str "")]))
        (UpstreamOutcome.document (Json.obj []))).result
      = HResult.resp 400 (Json.obj [("error", Json.str "No prompt provided")]) ∧
    (query_gemini (GEMINI_API_KEY (fun _ => none))
        (some (Json.obj [("prompt", Json.str "")]))
        (UpstreamOutcome.document (Json.obj []))).result.statusOf ≠ some 500 :=
  ⟨rfl, by decide⟩

/-- C8 (amended): with no credential set the process starts but serves no
request successfully: no upstream call is ever made, no payload is ever
sent, no response ever has status 200, and every request that passes
input validation (JSON object body with a truthy prompt) fails fast with
the 500 whose message names GEMINI_API_KEY; requests failing input
validation get their usual 400 or framework error instead. -/
theorem C8_missing_key_no_service (reqBody : Option Json) (up : UpstreamOutcome) :
    (query_gemini (GEMINI_API_KEY (fun _ => none)) reqBody up).calledUpstream = false ∧
    (query_gemini (GEMINI_API_KEY (fun _ => none)) reqBody up).sentPayload = none ∧
    (query_gemini (GEMINI_API_KEY (fun _ => none)) reqBody up).result.statusOf ≠ some 200 ∧
    (∀ bf, reqBody = some (Json.obj bf) →
      pyTruthy (dget bf "prompt" (Json.str "")) = true →
      (query_gemini (GEMINI_API_KEY (fun _ => none)) reqBody up).result
        = HResult.resp 500 (Json.obj [("error", Json.str
            "API Key is not set in the hosting service\x27s environment variables. Please set GEMINI_API_KEY.")]) ∧
      strContains
        "API Key is not set in the hosting service\x27s environment variables. Please set GEMINI_API_KEY."
        "GEMINI_API_KEY" = true) := by
  have hkey : GEMINI_API_KEY (fun _ => none) = "YOUR_GEMINI_API_KEY_IS_MISSING" := rfl
  rw [hkey]
  cases reqBody with
  | none =>
      exact ⟨rfl, rfl, by simp [query_gemini, HResult.statusOf],
        fun bf h => Option.noConfusion h⟩
  | some data =>
    cases data with
    | null =>
        exact ⟨rfl, rfl, by simp [query_gemini, HResult.statusOf],
          fun bf h => Json.noConfusion (Option.some.inj h)⟩
    | bool b =>
        exact ⟨rfl, rfl, by simp [query_gemini, HResult.statusOf],
          fun bf h => Json.noConfusion (Option.some.inj h)⟩
    | num n =>
        exact ⟨rfl, rfl, by simp [query_gemini, HResult.statusOf],
          fun bf h => Json.noConfusion (Option.some.inj h)⟩
    | float f =>
        exact ⟨rfl, rfl, by simp [query_gemini, HResult.statusOf],
          fun bf h => Json.noConfusion (Option.some.inj h)⟩
    | str s =>
        exact ⟨rfl, rfl, by simp [query_gemini, HResult.statusOf],
          fun bf h => Json.noConfusion (Option.some.inj h)⟩
    | arr xs =>
        exact ⟨rfl, rfl, by simp [query_gemini, HResult.statusOf],
          fun bf h => Json.noConfusion (Option.some.inj h)⟩
    | obj bf =>
      by_cases hp : pyTruthy (dget bf "prompt" (Json.str "")) = false
      · have hq : query_gemini "YOUR_GEMINI_API_KEY_IS_MISSING" (some (Json.obj bf)) up
            = ⟨false, none, HResult.resp 400 (Json.obj [("error", Json.str "No prompt provided")])⟩ := by
          simp only [query_gemini]
          rw [if_pos hp]
        refine ⟨by rw [hq], by rw [hq], by rw [hq]; decide, ?_⟩
        intro bf2 hbf hpt
        have hbf2 : bf2 = bf := by
          injection Option.some.inj hbf with h3
          exact h3.symm
        rw [hbf2] at hpt
        rw [hpt] at hp
        exact absurd hp (by decide)
      · have hq : query_gemini "YOUR_GEMINI_API_KEY_IS_MISSING" (some (Json.obj bf)) up
            = ⟨false, none, HResult.resp 500 (Json.obj [("error", Json.str
                "API Key is not set in the hosting service\x27s environment variables. Please set GEMINI_API_KEY.")])⟩ := by
          simp only [query_gemini]
          rw [if_neg hp]
          simp
        refine ⟨by rw [hq], by rw [hq], by rw [hq]; decide, ?_⟩
        intro bf2 hbf hpt
        exact ⟨by rw [hq], by decide⟩

/-- Witness for C8's amended theorem at a concrete valid request. -/
theorem C8_missing_key_no_service_witness :
    (query_gemini (GEMINI_API_KEY (fun _ => none))
        (some (Json.obj [("prompt", Json.str "hi")]))
        (UpstreamOutcome.document (Json.obj []))).result
      = HResult.resp 500 (Json.obj [("error", Json.str
          "API Key is not set in the hosting service\x27s environment variables. Please set GEMINI_API_KEY.")]) :=
  ((C8_missing_key_no_service (some (Json.obj [("prompt", Json.str "hi")]))
      (UpstreamOutcome.document (Json.obj []))).2.2.2
    [("prompt", Json.str "hi")] rfl (by decide)).1

/-- Witness for C10 at concrete bodies with `max_tokens: null` and with
the key absent. -/
theorem C10_null_max_tokens_omits_generation_config_witness :
    (∃ pl, (query_gemini "k"
        (some (Json.obj [("prompt", Json.str "hi"), ("max_tokens", Json.null)]))
        (UpstreamOutcome.document (Json.obj []))).sentPayload = some (Json.obj pl) ∧
      dlookup pl "generationConfig" = none) ∧
    (∃ pl, (query_gemini "k"
        (some (Json.obj [("prompt", Json.str "hi")]))
        (UpstreamOutcome.document (Json.obj []))).sentPayload = some (Json.obj pl) ∧
      dlookup pl "generationConfig" = some (Json.obj [("maxOutputTokens", Json.num 400)])) :=
  by
  constructor
  · exact (C10_null_max_tokens_omits_generation_config "k" "hi"
      [("prompt", Json.str "hi"), ("max_tokens", Json.null)]
      (UpstreamOutcome.document (Json.obj [])) (by decide) (by decide) (by decide)).1 (by decide)
  · exact (C10_null_max_tokens_omits_generation_config "k" "hi"
      [("prompt", Json.str "hi")]
      (UpstreamOutcome.document (Json.obj [])) (by decide) (by decide) (by decide)).2 (by decide)
